import Mathlib

/-!
Shallow embedding of `src/phenoml_client.py`, a demo HTTP client for the
PhenoML API, together with theorems about its request-building, response
handling and error behaviour.

JSON-compatible Python values are modelled by `JVal`; Python dictionaries
are association lists; the HTTP transport is an explicit oracle passed to
each function, so that "the call raised an exception" and "the call
returned this parsed JSON body" are both representable.  Every function
returns, besides its Python return value, the list of HTTP calls it
attempted and the list of lines it printed.
-/

set_option autoImplicit false

namespace PhenoML

/-- JSON-compatible Python value (`None`, `bool`, numbers, `str`, `list`,
`dict`).  Numbers are modelled by `Rat`, which covers the ints and the one
float literal (`0.9`) appearing in the source. -/
inductive JVal where
  | null
  | bool (b : Bool)
  | num (q : Rat)
  | str (s : String)
  | arr (xs : List JVal)
  | obj (fields : List (String × JVal))

/-- Python truthiness: `None`, `False`, `0`, `""`, `[]` and `{}` are falsy. -/
def JVal.truthy : JVal → Bool
  | .null => false
  | .bool b => b
  | .num q => !(q == 0)
  | .str s => !(s == "")
  | .arr xs => !xs.isEmpty
  | .obj fs => !fs.isEmpty

/-- Python `a or b`: the first operand when truthy, the second otherwise. -/
def pyOr (a b : JVal) : JVal := if a.truthy then a else b

/-- Python `dict.get(key, default)`: the stored value when the key is
present (even when that value is `None`), the default otherwise.  On a
non-dict value the model returns the default. -/
def JVal.getD (v : JVal) (key : String) (default : JVal) : JVal :=
  match v with
  | .obj fs => (fs.lookup key).getD default
  | _ => default

/-- Python `dict.get(key)`, i.e. `dict.get(key, None)`. -/
def JVal.get (v : JVal) (key : String) : JVal := v.getD key .null

/-- Whether a dict value carries the given key. -/
def JVal.hasKey (v : JVal) (key : String) : Bool :=
  match v with
  | .obj fs => (fs.lookup key).isSome
  | _ => false

/-- The elements of a list value (`[]` for any non-list). -/
def JVal.items : JVal → List JVal
  | .arr xs => xs
  | _ => []

/-- Python `==` between an arbitrary value and a string: true exactly when
the value is that string. -/
def JVal.eqStr : JVal → String → Bool
  | .str s, t => s == t
  | _, _ => false

mutual

/-- JSON rendering of a value, standing in for `json.dumps` (compact
rather than `indent=2`; only used to build the debug "Request payload"
print lines, whose exact text no theorem depends on). -/
def JVal.render : JVal → String
  | .null => "null"
  | .bool b => cond b "true" "false"
  | .num q => if q.den == 1 then toString q.num else toString q
  | .str s => "\"" ++ s ++ "\""
  | .arr xs => "[" ++ JVal.renderList xs ++ "]"
  | .obj fs => "\x7b" ++ JVal.renderObj fs ++ "\x7d"

/-- Comma-separated rendering of list elements. -/
def JVal.renderList : List JVal → String
  | [] => ""
  | [x] => x.render
  | x :: xs => x.render ++ ", " ++ JVal.renderList xs

/-- Comma-separated rendering of dict entries. -/
def JVal.renderObj : List (String × JVal) → String
  | [] => ""
  | [(k, v)] => "\"" ++ k ++ "\": " ++ v.render
  | (k, v) :: fs => "\"" ++ k ++ "\": " ++ v.render ++ ", " ++ JVal.renderObj fs

end

/-- Python `str()` / f-string interpolation of a value (`None` prints as
`"None"`, booleans capitalised, strings bare). -/
def pyStr : JVal → String
  | .null => "None"
  | .bool b => cond b "True" "False"
  | .num q => if q.den == 1 then toString q.num else toString q
  | .str s => s
  | .arr xs => "[" ++ JVal.renderList xs ++ "]"
  | .obj fs => "\x7b" ++ JVal.renderObj fs ++ "\x7d"

/-- One attempted HTTP call: method, full URL and optional JSON body. -/
structure HttpCall where
  method : String
  url : String
  body : Option JVal

/-- The client object: base URL, credentials, and the mutable token slot
(`None` until a successful `authenticate` stores a value into it). -/
structure PhenoMLClient where
  token : JVal
  base_url : String
  identity : String
  email : String
  password : String

/-- What the authentication HTTP round trip did: either the `requests`
call (or `.json()` parsing) raised an exception, or it produced a status
code, a parsed JSON body and a response text. -/
inductive AuthCallResult where
  | exc (msg : String)
  | resp (status : Nat) (body : JVal) (text : String)

/-- A transport oracle for `request`: for each attempted call, either the
parsed JSON of the response (`requests` then `.json()` succeeded) or the
message of the exception that was raised. -/
def Transport : Type := HttpCall → Except String JVal

/-- `PhenoMLClient.authenticate`: on status 200 stores
`body.get('token') or body.get('access_token')` as the token and returns
`True`; on any other status, or on an exception, prints a failure line and
returns `False` leaving the client untouched.  Result: (return value,
client after the call, printed lines). -/
def authenticate (c : PhenoMLClient) (call : AuthCallResult) :
    Bool × PhenoMLClient × List String :=
  match call with
  | .exc msg => (false, c, ["✗ Authentication error: " ++ msg])
  | .resp status body text =>
    if status == 200 then
      let tok := pyOr (body.get "token") (body.get "access_token")
      (true, { c with token := tok }, ["✓ Authentication successful!"])
    else
      (false, c,
        ["✗ Authentication failed: " ++ toString status,
         "Response: " ++ text])

/-- Python `method.upper()`, as a character-wise map (the method strings
appearing in the demos are ASCII). -/
def pyUpper (s : String) : String := ⟨s.data.map Char.toUpper⟩

/-- `PhenoMLClient.request`: refuses (returning `None`) without a truthy
token; otherwise dispatches on the upper-cased method, GET ignoring the
body, POST sending it; an unsupported method raises `ValueError` inside
the `try`, so it is caught like a transport exception.  Result: (returned
parsed JSON or `None`, attempted HTTP calls, printed lines). -/
def request (c : PhenoMLClient) (transport : Transport)
    (method endpoint : String) (data : Option JVal) :
    Option JVal × List HttpCall × List String :=
  if !c.token.truthy then
    (none, [], ["✗ No authentication token available"])
  else
    let url := c.base_url ++ endpoint
    if pyUpper method == "GET" then
      let call : HttpCall := ⟨"GET", url, none⟩
      match transport call with
      | .ok j => (some j, [call], [])
      | .error e => (none, [call], ["✗ Request error: " ++ e])
    else if pyUpper method == "POST" then
      let call : HttpCall := ⟨"POST", url, data⟩
      match transport call with
      | .ok j => (some j, [call], [])
      | .error e => (none, [call], ["✗ Request error: " ++ e])
    else
      (none, [], ["✗ Request error: Unsupported method: " ++ method])

/-- Python `if response and response.get('success'):` on the value
`request` returned. -/
def respSuccess (response : Option JVal) : Bool :=
  match response with
  | some r => r.truthy && (r.get "success").truthy
  | none => false

/-- The `meta` sub-dict shared by the create/search/cohort demos: each of
the three fields enters only when its value is truthy. -/
def build_meta (fhir_store_id instance_name on_behalf_of_email : JVal) :
    List (String × JVal) :=
  (if fhir_store_id.truthy then [("fhir_store_id", fhir_store_id)] else [])
    ++ (if instance_name.truthy then [("instance_name", instance_name)] else [])
    ++ (if on_behalf_of_email.truthy then [("on_behalf_of_email", on_behalf_of_email)] else [])

/-- The request body assembled by `demo_lang2fhir_create`. -/
def demo_lang2fhir_create_body (resource_type text : String)
    (provider fhir_store_id instance_name on_behalf_of_email : JVal) : JVal :=
  let data := [("resource", JVal.str resource_type), ("text", JVal.str text)]
  let data := data ++ (if provider.truthy then [("provider", provider)] else [])
  let meta := build_meta fhir_store_id instance_name on_behalf_of_email
  JVal.obj (data ++ (if !meta.isEmpty then [("meta", JVal.obj meta)] else []))

/-- The request body assembled by `demo_lang2fhir_search`: `text` always,
then `provider`, the `meta` dict, `patient_id`, `practitioner_id` and
`count`, each only when truthy. -/
def demo_lang2fhir_search_body (text : String)
    (provider fhir_store_id instance_name on_behalf_of_email
     patient_id practitioner_id count : JVal) : JVal :=
  let data := [("text", JVal.str text)]
  let data := data ++ (if provider.truthy then [("provider", provider)] else [])
  let meta := build_meta fhir_store_id instance_name on_behalf_of_email
  let data := data ++ (if !meta.isEmpty then [("meta", JVal.obj meta)] else [])
  let data := data ++ (if patient_id.truthy then [("patient_id", patient_id)] else [])
  let data := data ++ (if practitioner_id.truthy then [("practitioner_id", practitioner_id)] else [])
  JVal.obj (data ++ (if count.truthy then [("count", count)] else []))

/-- The numbered result lines of the search demo, with `i` the running
index of `enumerate`. -/
def search_numbered_lines (i : Nat) : List JVal → List String
  | [] => []
  | r :: rs =>
    ("  " ++ toString (i + 1) ++ ". " ++ pyStr (r.get "resourceType")
      ++ " (ID: " ++ pyStr (r.get "id") ++ ")")
      :: search_numbered_lines (i + 1) rs

/-- The per-result sample lines `demo_lang2fhir_search` prints: one line
for each of the first three results (`for i, result in enumerate(results[:3])`). -/
def search_sample_lines (results : List JVal) : List String :=
  search_numbered_lines 0 (results.take 3)

/-- The `"... and N more"` remainder notice of the search demo, printed
only when more than three results came back. -/
def search_more_lines (results : List JVal) : List String :=
  if results.length > 3 then
    ["  ... and " ++ toString (results.length - 3) ++ " more"]
  else []

/-- `demo_lang2fhir_search`: builds the body, POSTs it, and on
`response and response.get('success')` prints the result count, the first
three samples and the remainder notice, returning the raw response;
otherwise prints a failure line (with the error only when the response
dict is truthy) and returns `None`. -/
def demo_lang2fhir_search (c : PhenoMLClient) (transport : Transport) (text : String)
    (provider fhir_store_id instance_name on_behalf_of_email
     patient_id practitioner_id count : JVal) :
    Option JVal × List HttpCall × List String :=
  let data := demo_lang2fhir_search_body text provider fhir_store_id instance_name
      on_behalf_of_email patient_id practitioner_id count
  let header := [" Searching for: '" ++ text ++ "'", "Request payload: " ++ data.render]
  let (response, calls, reqOut) := request c transport "POST" "/tools/lang2fhir-and-search" (some data)
  match response with
  | some r =>
    if r.truthy && (r.get "success").truthy then
      let results := (r.getD "fhir_results" (.arr [])).items
      (some r, calls, header ++ reqOut
        ++ ["✓ Found " ++ toString results.length ++ " results",
            "  Resource Type: " ++ pyStr (r.getD "resource_type" (.str "Unknown")),
            "  Search Params: " ++ pyStr (r.getD "search_params" (.str ""))]
        ++ search_sample_lines results
        ++ search_more_lines results
        ++ (if (r.get "message").truthy then ["  Message: " ++ pyStr (r.get "message")] else []))
    else
      (none, calls, header ++ reqOut ++ ["✗ Search failed"]
        ++ (if r.truthy then ["  Error: " ++ pyStr (r.getD "message" (.str "Unknown error"))] else []))
  | none => (none, calls, header ++ reqOut ++ ["✗ Search failed"])

/-- The request body assembled by `demo_cohort_tool` (`text` and
`provider` are required, the `meta` dict enters only when non-empty). -/
def demo_cohort_tool_body (text provider : String)
    (fhir_store_id instance_name on_behalf_of_email : JVal) : JVal :=
  let data := [("text", JVal.str text), ("provider", JVal.str provider)]
  let meta := build_meta fhir_store_id instance_name on_behalf_of_email
  JVal.obj (data ++ (if !meta.isEmpty then [("meta", JVal.obj meta)] else []))

/-- The numbered patient-id lines of the cohort demo, with `i` the
running index of `enumerate`. -/
def cohort_numbered_lines (i : Nat) : List JVal → List String
  | [] => []
  | x :: xs => ("    " ++ toString (i + 1) ++ ". " ++ pyStr x)
      :: cohort_numbered_lines (i + 1) xs

/-- The sample patient-id lines of the cohort demo: one line for each of
the first five ids (`for i, patient_id in enumerate(patient_ids[:5])`). -/
def cohort_sample_lines (patient_ids : List JVal) : List String :=
  cohort_numbered_lines 0 (patient_ids.take 5)

/-- The `"... and N more"` remainder notice of the cohort demo, printed
only when more than five patient ids came back. -/
def cohort_more_lines (patient_ids : List JVal) : List String :=
  if patient_ids.length > 5 then
    ["    ... and " ++ toString (patient_ids.length - 5) ++ " more"]
  else []

/-- The search-concept lines of the cohort demo, with `i` the running
index of `enumerate`. -/
def cohort_query_lines_from (i : Nat) : List JVal → List String
  | [] => []
  | q :: qs =>
    ("    " ++ toString (i + 1) ++ ". " ++ pyStr (q.getD "resourceType" (.str "Unknown"))
      ++ ": " ++ pyStr (q.getD "concept" (.str "Unknown"))
      ++ (if (q.getD "exclude" (.bool false)).truthy then " (EXCLUDE)" else ""))
      :: cohort_query_lines_from (i + 1) qs

/-- The search-concept lines of the cohort demo. -/
def cohort_query_lines (queries : List JVal) : List String :=
  cohort_query_lines_from 0 queries

/-- `demo_cohort_tool`: builds the body, POSTs it, and on success prints
the patient count, the first five patient ids with a remainder notice,
and the search concepts, returning the raw response; otherwise prints a
failure line and returns `None`. -/
def demo_cohort_tool (c : PhenoMLClient) (transport : Transport) (text provider : String)
    (fhir_store_id instance_name on_behalf_of_email : JVal) :
    Option JVal × List HttpCall × List String :=
  let data := demo_cohort_tool_body text provider fhir_store_id instance_name on_behalf_of_email
  let header := [" Performing cohort analysis for: '" ++ text ++ "'",
                 " Request payload: " ++ data.render]
  let (response, calls, reqOut) := request c transport "POST" "/tools/cohort" (some data)
  match response with
  | some r =>
    if r.truthy && (r.get "success").truthy then
      let patient_ids := r.getD "patientIds" (.arr [])
      let queries := r.getD "queries" (.arr [])
      let message := r.getD "message" (.str "")
      (some r, calls, header ++ reqOut
        ++ ["✓ Cohort analysis completed successfully!",
            "  Found " ++ pyStr (r.getD "patientCount" (.num 0)) ++ " patients",
            "  Search concepts used: " ++ toString queries.items.length]
        ++ (if message.truthy then ["  Message: " ++ pyStr message] else [])
        ++ (if patient_ids.truthy then
              ["  Sample patient IDs:"]
                ++ cohort_sample_lines patient_ids.items
                ++ cohort_more_lines patient_ids.items
            else [])
        ++ (if queries.truthy then
              ["  Search concepts:"] ++ cohort_query_lines queries.items
            else []))
    else
      (none, calls, header ++ reqOut ++ ["✗ Cohort analysis failed"]
        ++ (if r.truthy then ["  Error: " ++ pyStr (r.getD "message" (.str "Unknown error"))] else []))
  | none => (none, calls, header ++ reqOut ++ ["✗ Cohort analysis failed"])

/-- The request body assembled by `create_prompt` (`description or
f"Prompt for {name}"` uses Python `or`). -/
def create_prompt_body (name content : String) (description : JVal) : JVal :=
  JVal.obj
    [("name", JVal.str name),
     ("description", pyOr description (.str ("Prompt for " ++ name))),
     ("type", JVal.str "system"),
     ("content", JVal.str content),
     ("is_active", JVal.bool true),
     ("is_default", JVal.bool false),
     ("tags", JVal.arr [JVal.str "demo"])]

/-- The prompt id `create_prompt` reads off the create-call response:
`response.get('data', {}).get('id') or response.get('id')` when the
response is truthy with a truthy `success`, and `None` otherwise. -/
def create_prompt_created_id (response : Option JVal) : JVal :=
  match response with
  | some r =>
    if r.truthy && (r.get "success").truthy then
      pyOr ((r.getD "data" (.obj [])).get "id") (r.get "id")
    else .null
  | none => .null

/-- The fallback of `create_prompt`: on a truthy-success list response it
scans `response.get('prompts', []) or response.get('data', [])` and
returns the id of the first prompt whose `name` equals the requested
name; `None` (with the failure line) in every other case. -/
def create_prompt_fallback (response : Option JVal) (name : String) : JVal × List String :=
  match response with
  | some r =>
    if r.truthy && (r.get "success").truthy then
      let prompts := (pyOr (r.getD "prompts" (.arr [])) (r.getD "data" (.arr []))).items
      match prompts.find? (fun p => (p.get "name").eqStr name) with
      | some p => (p.get "id", ["✓ Found existing prompt with ID: " ++ pyStr (p.get "id")])
      | none => (.null, ["✗ Failed to create or find prompt"])
    else (.null, ["✗ Failed to create or find prompt"])
  | none => (.null, ["✗ Failed to create or find prompt"])

/-- `create_prompt`: POSTs the create body; when that yields a truthy id,
returns it; otherwise GETs the prompt list and falls back to matching by
name.  Result: (returned id or `None`, attempted calls, printed lines). -/
def create_prompt (c : PhenoMLClient) (transport : Transport)
    (name content : String) (description : JVal) :
    JVal × List HttpCall × List String :=
  let header := [" Creating prompt: '" ++ name ++ "'"]
  let data := create_prompt_body name content description
  let (r1, calls1, out1) := request c transport "POST" "/agent/prompts" (some data)
  let prompt_id := create_prompt_created_id r1
  if prompt_id.truthy then
    (prompt_id, calls1, header ++ out1 ++ ["✓ Prompt created with ID: " ++ pyStr prompt_id])
  else
    let (r2, calls2, out2) := request c transport "GET" "/agent/prompts" none
    let (found, foundOut) := create_prompt_fallback r2 name
    (found, calls1 ++ calls2, header ++ out1 ++ out2 ++ foundOut)

/-- Python `type(v)` as printed inside the invalid-provider warning of
`create_agent`. -/
def pyType : JVal → String
  | .null => "<class 'NoneType'>"
  | .bool _ => "<class 'bool'>"
  | .num q => if q.den == 1 then "<class 'int'>" else "<class 'float'>"
  | .str _ => "<class 'str'>"
  | .arr _ => "<class 'list'>"
  | .obj _ => "<class 'dict'>"

/-- Python `', '.join(xs)` over the provider list. -/
def joinComma (xs : List JVal) : String :=
  String.intercalate ", " (xs.map pyStr)

/-- The provider handling of `create_agent`: inside `if provider:` a
string value is embedded, a list value is embedded, and anything else
only warns; a falsy provider skips the whole block.  Returns the updated
field list and the printed lines. -/
def create_agent_provider_update (data : List (String × JVal)) (provider : JVal) :
    List (String × JVal) × List String :=
  if provider.truthy then
    match provider with
    | .str s => (data ++ [("provider", .str s)], ["  Using provider: " ++ s])
    | .arr xs => (data ++ [("provider", .arr xs)], ["  Using providers: " ++ joinComma xs])
    | other => (data,
        ["  Warning: Invalid provider type. Expected str or list, got " ++ pyType other])
  else (data, [])

/-- The base field list of the `create_agent` body, before the provider
and meta handling (`tools or [...]` uses Python `or`). -/
def create_agent_base (name : String) (prompts tools : JVal) : List (String × JVal) :=
  [("name", JVal.str name),
   ("description", JVal.str ("AI agent for " ++ name)),
   ("prompts", prompts),
   ("is_active", JVal.bool true),
   ("tools", pyOr tools (.arr [.str "lang2fhir_create", .str "lang2fhir_search"])),
   ("tags", JVal.arr [JVal.str "demo"])]

/-- The full request body of `create_agent` and the lines the provider
handling printed. -/
def create_agent_body (name : String) (prompts tools provider meta : JVal) :
    JVal × List String :=
  let (data, provOut) := create_agent_provider_update (create_agent_base name prompts tools) provider
  (JVal.obj (data ++ (if meta.truthy then [("meta", meta)] else [])), provOut)

/-- `create_agent`: assembles the body (provider and meta entering only
as described above), POSTs it, and returns `response.get('data', {}).get('id')`
when truthy, printing the failure lines and returning `None` otherwise. -/
def create_agent (c : PhenoMLClient) (transport : Transport)
    (name : String) (prompts tools provider meta : JVal) :
    JVal × List HttpCall × List String :=
  let (data, provOut) := create_agent_body name prompts tools provider meta
  let header := [" Creating agent: '" ++ name ++ "'"] ++ provOut
      ++ ["  Request payload: " ++ data.render]
  let (response, calls, reqOut) := request c transport "POST" "/agent/create" (some data)
  let agent_id : JVal :=
    match response with
    | some r =>
      if r.truthy && (r.get "success").truthy then (r.getD "data" (.obj [])).get "id"
      else .null
    | none => .null
  if agent_id.truthy then
    (agent_id, calls, header ++ reqOut ++ ["✓ Agent created with ID: " ++ pyStr agent_id])
  else
    (.null, calls, header ++ reqOut ++ ["✗ Failed to create agent"]
      ++ (match response with
          | some r =>
            if r.truthy && (r.get "message").truthy then
              ["  Error: " ++ pyStr (r.get "message")]
            else []
          | none => []))

/-- The request body of `chat_with_agent`: the dict literal always
carries `session_id`, so an absent session id is sent as `null`. -/
def chat_with_agent_body (message agent_id : String) (session_id : JVal) : JVal :=
  JVal.obj [("message", JVal.str message), ("agent_id", JVal.str agent_id),
            ("session_id", session_id)]

/-- `chat_with_agent`: POSTs the body and prints the agent reply on
success, a failure line otherwise. -/
def chat_with_agent (c : PhenoMLClient) (transport : Transport)
    (message agent_id : String) (session_id : JVal) :
    Option JVal × List HttpCall × List String :=
  let header := [" Chatting with agent: '" ++ message ++ "'"]
  let data := chat_with_agent_body message agent_id session_id
  let (response, calls, reqOut) := request c transport "POST" "/agent/chat" (some data)
  match response with
  | some r =>
    if r.truthy && (r.get "success").truthy then
      (some r, calls, header ++ reqOut
        ++ [" Agent: " ++ pyStr (r.getD "response" (.str "No response"))])
    else
      (none, calls, header ++ reqOut ++ ["✗ Chat failed"]
        ++ (if r.truthy then ["  Error: " ++ pyStr (r.getD "message" (.str "Unknown error"))] else []))
  | none => (none, calls, header ++ reqOut ++ ["✗ Chat failed"])

/-- The request body of `extract_medical_codes`: the `system` and
`config` blocks are always present and passed through verbatim. -/
def extract_body (text system_name system_version chunking_method : String)
    (max_codes_per_chunk : Rat) (code_similarity_filter : Rat)
    (include_rationale : Bool) : JVal :=
  JVal.obj
    [("system", JVal.obj [("name", JVal.str system_name),
                          ("version", JVal.str system_version)]),
     ("config", JVal.obj [("chunking_method", JVal.str chunking_method),
                          ("max_codes_per_chunk", JVal.num max_codes_per_chunk),
                          ("code_similarity_filter", JVal.num code_similarity_filter),
                          ("include_rationale", JVal.bool include_rationale)]),
     ("text", JVal.str text)]

/-- The per-code lines `extract_medical_codes` prints, with `i` the
running index of `enumerate`: code, description, the reason only when it
is truthy AND `include_rationale` holds, then a blank line. -/
def extract_code_lines_from (include_rationale : Bool) (i : Nat) :
    List JVal → List String
  | [] => []
  | code :: rest =>
    ["    " ++ toString (i + 1) ++ ". Code: " ++ pyStr (code.getD "code" (.str "Unknown")),
     "       Description: " ++ pyStr (code.getD "description" (.str "No description"))]
    ++ (if (code.getD "reason" (.str "")).truthy && include_rationale then
          ["       Reason: " ++ pyStr (code.getD "reason" (.str ""))]
        else [])
    ++ [""]
    ++ extract_code_lines_from include_rationale (i + 1) rest

/-- The full per-code print block of `extract_medical_codes`. -/
def extract_code_lines (include_rationale : Bool) (codes : List JVal) : List String :=
  extract_code_lines_from include_rationale 0 codes

/-- The response handling of `extract_medical_codes`: on a truthy
response with a truthy `codes` field, print the code list and return the
full raw response; on a truthy response without one, print an error from
`message`, else `error`, else the unknown-error fallback, and return
`None`; on a falsy or absent response print the no-response error. -/
def extract_handle (response : Option JVal) (include_rationale : Bool) :
    Option JVal × List String :=
  match response with
  | some r =>
    if r.truthy then
      if (r.get "codes").truthy then
        let codes := (r.getD "codes" (.arr [])).items
        let system_info := r.getD "system" (.obj [])
        (some r,
          ["✓ Medical codes extracted successfully!",
           "   System: " ++ pyStr (system_info.getD "name" (.str "Unknown"))
             ++ " " ++ pyStr (system_info.getD "version" (.str "Unknown")),
           "   Found " ++ toString codes.length ++ " medical codes:"]
          ++ extract_code_lines include_rationale codes)
      else
        (none,
          ["✗ Failed to extract medical codes",
           if (r.get "message").truthy then "   Error: " ++ pyStr (r.get "message")
           else if (r.get "error").truthy then "   Error: " ++ pyStr (r.get "error")
           else "   Error: Unknown error occurred"])
    else (none, ["✗ Failed to extract medical codes", "   Error: No response received"])
  | none => (none, ["✗ Failed to extract medical codes", "   Error: No response received"])

/-- `extract_medical_codes`: POSTs the system/config/text body to
`/construe/extract` and handles the response as in `extract_handle`. -/
def extract_medical_codes (c : PhenoMLClient) (transport : Transport)
    (text system_name system_version chunking_method : String)
    (max_codes_per_chunk : Rat) (code_similarity_filter : Rat)
    (include_rationale : Bool) :
    Option JVal × List HttpCall × List String :=
  let data := extract_body text system_name system_version chunking_method
      max_codes_per_chunk code_similarity_filter include_rationale
  let header := [" Extracting medical codes from: '" ++ text ++ "'",
                 " Request payload: " ++ data.render]
  let (response, calls, reqOut) := request c transport "POST" "/construe/extract" (some data)
  let (ret, out) := extract_handle response include_rationale
  (ret, calls, header ++ reqOut ++ out)

/-! ### Test fixtures -/

/-- A client that already holds a bearer token. -/
def cli : PhenoMLClient :=
  ⟨JVal.str "tok", "http://h", "user", "user@example.com", "pw"⟩

/-- A client fresh out of the constructor: `self.token = None`. -/
def freshCli : PhenoMLClient :=
  ⟨JVal.null, "http://h", "user", "user@example.com", "pw"⟩

/-- A transport whose every call parses to the empty JSON object. -/
def okTransport : Transport := fun _ => .ok (JVal.obj [])

/-! ### Theorems for the claims -/

/-- `"GET".upper()` is `"GET"`. -/
theorem pyUpper_GET : pyUpper "GET" = "GET" := rfl

/-- `"POST".upper()` is `"POST"`. -/
theorem pyUpper_POST : pyUpper "POST" = "POST" := rfl

/-- The field list of a dict value (`[]` for any non-dict). -/
def JVal.fieldsOf : JVal → List (String × JVal)
  | .obj fs => fs
  | _ => []

/-- `List.lookup` over an append is the `Option.or` of the lookups. -/
theorem lookup_append (k : String) (l₁ l₂ : List (String × JVal)) :
    List.lookup k (l₁ ++ l₂) = (List.lookup k l₁).or (List.lookup k l₂) := by
  induction l₁ with
  | nil => simp [List.lookup]
  | cons p l ih =>
    obtain ⟨a, b⟩ := p
    by_cases h : k == a <;> simp [List.lookup, h, ih]

/-- `hasKey` distributes over an appended field list. -/
theorem hasKey_obj_append (k : String) (l₁ l₂ : List (String × JVal)) :
    (JVal.obj (l₁ ++ l₂)).hasKey k
      = ((JVal.obj l₁).hasKey k || (JVal.obj l₂).hasKey k) := by
  simp only [JVal.hasKey, lookup_append]
  cases List.lookup k l₁ <;> simp

/-- A conditionally-present single field holds its key exactly when the
condition holds. -/
theorem hasKey_ite_self (c : Prop) [Decidable c] (a : String) (v : JVal) :
    (JVal.obj (if c then [(a, v)] else [])).hasKey a = decide c := by
  split <;> simp_all [JVal.hasKey, List.lookup]

/-- A conditionally-present single field never holds another key. -/
theorem hasKey_ite_ne (c : Prop) [Decidable c] (k a : String) (v : JVal)
    (h : (k == a) = false) :
    (JVal.obj (if c then [(a, v)] else [])).hasKey k = false := by
  split <;> simp [JVal.hasKey, List.lookup, h]

/-- A truthy value is not `None`. -/
theorem truthy_ne_null {v : JVal} (h : v.truthy = true) : v ≠ JVal.null := by
  rintro rfl; simp [JVal.truthy] at h

/-- Appending preserves "no field value is null". -/
theorem noNull_append {l₁ l₂ : List (String × JVal)}
    (h₁ : ∀ p ∈ l₁, p.2 ≠ JVal.null) (h₂ : ∀ p ∈ l₂, p.2 ≠ JVal.null) :
    ∀ p ∈ l₁ ++ l₂, p.2 ≠ JVal.null := by
  intro p hp
  rcases List.mem_append.1 hp with h | h
  exacts [h₁ p h, h₂ p h]

/-- A field guarded by a condition implying non-nullity contributes no
null value. -/
theorem noNull_ite_single {c : Prop} [Decidable c] {a : String} {v : JVal}
    (h : c → v ≠ JVal.null) :
    ∀ p ∈ (if c then [(a, v)] else []), p.2 ≠ JVal.null := by
  split <;> simp_all

/-- C1 (counterexample): `chat_with_agent` invoked without a session id
sends a request body that carries `session_id` as an explicit null
placeholder, so the claim that no outgoing body ever contains one — and
in particular that the agent-chat `session_id` field is included only
when supplied — is false as stated. -/
theorem C1_counterexample_chat_null_session :
    (chat_with_agent cli okTransport "hello" "agent-1" JVal.null).2.1
      = [⟨"POST", "http://h/agent/chat",
          some (JVal.obj [("message", JVal.str "hello"),
                          ("agent_id", JVal.str "agent-1"),
                          ("session_id", JVal.null)])⟩] := rfl

/-- C1 (amended): in the search operation's request body each optional
argument (provider, patient_id, practitioner_id, count, and the meta
sub-dict) yields a field exactly when its value is truthy (for meta: when
the assembled meta dict is non-empty), and no field value is a null
placeholder; the agent-chat body, by contrast, always carries the
`session_id` field with exactly the supplied value — null when the
session id was not supplied. -/
theorem C1_amended_optional_fields (text message agent_id : String)
    (provider fhir_store_id instance_name on_behalf_of_email
     patient_id practitioner_id count session_id : JVal) :
    (demo_lang2fhir_search_body text provider fhir_store_id instance_name
        on_behalf_of_email patient_id practitioner_id count).hasKey "provider"
        = provider.truthy
      ∧ (demo_lang2fhir_search_body text provider fhir_store_id instance_name
          on_behalf_of_email patient_id practitioner_id count).hasKey "patient_id"
          = patient_id.truthy
      ∧ (demo_lang2fhir_search_body text provider fhir_store_id instance_name
          on_behalf_of_email patient_id practitioner_id count).hasKey "practitioner_id"
          = practitioner_id.truthy
      ∧ (demo_lang2fhir_search_body text provider fhir_store_id instance_name
          on_behalf_of_email patient_id practitioner_id count).hasKey "count"
          = count.truthy
      ∧ (demo_lang2fhir_search_body text provider fhir_store_id instance_name
          on_behalf_of_email patient_id practitioner_id count).hasKey "meta"
          = !(build_meta fhir_store_id instance_name on_behalf_of_email).isEmpty
      ∧ (∀ p ∈ (demo_lang2fhir_search_body text provider fhir_store_id instance_name
          on_behalf_of_email patient_id practitioner_id count).fieldsOf,
            p.2 ≠ JVal.null)
      ∧ (chat_with_agent_body message agent_id session_id).fieldsOf
          = [("message", JVal.str message), ("agent_id", JVal.str agent_id),
             ("session_id", session_id)] := by
  refine ⟨?_, ?_, ?_, ?_, ?_, ?_, rfl⟩ <;>
    simp only [demo_lang2fhir_search_body, JVal.fieldsOf]
  · split_ifs <;>
      simp_all [JVal.hasKey, lookup_append, List.lookup]
  · split_ifs <;>
      simp_all [JVal.hasKey, lookup_append, List.lookup]
  · split_ifs <;>
      simp_all [JVal.hasKey, lookup_append, List.lookup]
  · split_ifs <;>
      simp_all [JVal.hasKey, lookup_append, List.lookup]
  · split_ifs <;>
      simp_all [JVal.hasKey, lookup_append, List.lookup]
  · refine noNull_append (noNull_append (noNull_append (noNull_append
      (noNull_append ?_ ?_) ?_) ?_) ?_) ?_
    · rintro p hp
      simp only [List.mem_singleton] at hp
      subst hp; simp
    · exact noNull_ite_single (fun h => truthy_ne_null h)
    · exact noNull_ite_single (fun _ => by simp)
    · exact noNull_ite_single (fun h => truthy_ne_null h)
    · exact noNull_ite_single (fun h => truthy_ne_null h)
    · exact noNull_ite_single (fun h => truthy_ne_null h)

/-- Witness for C1 (amended): a supplied patient id is included, an
absent count is omitted, and the chat body carries a null session id. -/
theorem C1_amended_optional_fields_witness :
    (demo_lang2fhir_search_body "q" JVal.null JVal.null JVal.null JVal.null
        (JVal.str "pat-1") JVal.null JVal.null).hasKey "patient_id" = true
      ∧ (demo_lang2fhir_search_body "q" JVal.null JVal.null JVal.null JVal.null
          (JVal.str "pat-1") JVal.null JVal.null).hasKey "count" = false
      ∧ (chat_with_agent_body "hi" "a1" JVal.null).fieldsOf
        = [("message", JVal.str "hi"), ("agent_id", JVal.str "a1"),
           ("session_id", JVal.null)] := by
  have h := C1_amended_optional_fields "q" "hi" "a1" JVal.null JVal.null JVal.null
    JVal.null (JVal.str "pat-1") JVal.null JVal.null JVal.null
  exact ⟨h.2.1, h.2.2.2.1, h.2.2.2.2.2.2⟩

/-- C2: when the authentication HTTP call raises a transport exception or
returns any non-200 status, `authenticate` returns `false` and the client
— in particular its stored token — is left exactly as it was before the
call. -/
theorem C2_auth_failure_keeps_token (c : PhenoMLClient) (msg text : String)
    (status : Nat) (body : JVal) (h : status ≠ 200) :
    (authenticate c (.exc msg)).1 = false
      ∧ (authenticate c (.exc msg)).2.1 = c
      ∧ (authenticate c (.resp status body text)).1 = false
      ∧ (authenticate c (.resp status body text)).2.1 = c := by
  refine ⟨rfl, rfl, ?_, ?_⟩ <;> simp [authenticate, h]

/-- Witness for C2 at a concrete failing status and a concrete exception. -/
theorem C2_auth_failure_keeps_token_witness :
    (authenticate freshCli (.exc "connection refused")).1 = false
      ∧ (authenticate freshCli (.exc "connection refused")).2.1 = freshCli
      ∧ (authenticate freshCli (.resp 401 (JVal.obj []) "denied")).1 = false
      ∧ (authenticate freshCli (.resp 401 (JVal.obj []) "denied")).2.1 = freshCli :=
  C2_auth_failure_keeps_token freshCli "connection refused" "denied" 401 (JVal.obj [])
    (by decide)

/-- C3: while the stored token is still `None` (no successful
`authenticate` has stored one), `request` returns `None` immediately for
every method, endpoint, body and transport, attempting no HTTP call. -/
theorem C3_request_without_token (c : PhenoMLClient) (transport : Transport)
    (method endpoint : String) (data : Option JVal)
    (h : c.token = JVal.null) :
    request c transport method endpoint data
      = (none, [], ["✗ No authentication token available"]) := by
  simp [request, h, JVal.truthy]

/-- Witness for C3: a fresh client refuses a POST without calling the
transport. -/
theorem C3_request_without_token_witness :
    request freshCli okTransport "POST" "/tools/cohort" none
      = (none, [], ["✗ No authentication token available"]) :=
  C3_request_without_token freshCli okTransport "POST" "/tools/cohort" none rfl

/-- C9: `authenticate` and `request` are total functions of their inputs
(so no exception reaches a caller), and each failure mode yields only a
printed line and a `false`/`None` return: a transport exception during
authentication, a transport exception during a GET or POST, and an
unsupported HTTP method — whose `ValueError` is raised inside the `try`
and caught by the same handler. -/
theorem C9_failures_return_null (c : PhenoMLClient) (transport : Transport)
    (method endpoint : String) (data : Option JVal) (msg : String)
    (hg : pyUpper method ≠ "GET") (hp : pyUpper method ≠ "POST")
    (htok : c.token.truthy = true)
    (herr : ∀ call, transport call = .error msg) :
    authenticate c (.exc msg) = (false, c, ["✗ Authentication error: " ++ msg])
      ∧ request c transport method endpoint data
          = (none, [], ["✗ Request error: Unsupported method: " ++ method])
      ∧ request c transport "GET" endpoint data
          = (none, [⟨"GET", c.base_url ++ endpoint, none⟩], ["✗ Request error: " ++ msg])
      ∧ request c transport "POST" endpoint data
          = (none, [⟨"POST", c.base_url ++ endpoint, data⟩], ["✗ Request error: " ++ msg]) := by
  refine ⟨rfl, ?_, ?_, ?_⟩ <;>
    simp [request, htok, hg, hp, herr, pyUpper_GET, pyUpper_POST]

/-- Witness for C9: a PATCH with a token present, and erroring GET/POST
transports, all end in `None` plus a printed line. -/
theorem C9_failures_return_null_witness :
    authenticate cli (.exc "timeout") = (false, cli, ["✗ Authentication error: timeout"])
      ∧ request cli (fun _ => .error "timeout") "PATCH" "/x" none
          = (none, [], ["✗ Request error: Unsupported method: PATCH"])
      ∧ request cli (fun _ => .error "timeout") "GET" "/x" none
          = (none, [⟨"GET", "http://h/x", none⟩], ["✗ Request error: timeout"])
      ∧ request cli (fun _ => .error "timeout") "POST" "/x" none
          = (none, [⟨"POST", "http://h/x", none⟩], ["✗ Request error: timeout"]) :=
  C9_failures_return_null cli (fun _ => .error "timeout") "PATCH" "/x" none "timeout"
    (by decide) (by decide) (by decide) (fun _ => rfl)

/-- A transport for the prompt demo: the create POST succeeds without
returning an id, the list GET returns two prompts. -/
def promptTransport : Transport := fun call =>
  if call.method == "GET" then
    .ok (JVal.obj
      [("success", JVal.bool true),
       ("prompts", JVal.arr
         [JVal.obj [("name", JVal.str "other"), ("id", JVal.str "id0")],
          JVal.obj [("name", JVal.str "p1"), ("id", JVal.str "id1")]])])
  else .ok (JVal.obj [("success", JVal.bool true)])

/-- C4: when the create call yields no truthy prompt id — whether it
failed or succeeded without an id — `create_prompt` returns the result of
the list fallback; on a truthy-success list response the fallback returns
the id of the first listed prompt whose name equals the requested one,
`None` when no listed prompt matches, and `None` when the list call
itself did not succeed. -/
theorem C4_create_prompt_fallback_behaviour (c : PhenoMLClient) (transport : Transport)
    (name content : String) (description : JVal)
    (h : (create_prompt_created_id
        (request c transport "POST" "/agent/prompts"
          (some (create_prompt_body name content description))).1).truthy = false) :
    (create_prompt c transport name content description).1
        = (create_prompt_fallback
            (request c transport "GET" "/agent/prompts" none).1 name).1
      ∧ (∀ r : JVal, r.truthy = true → (r.get "success").truthy = true →
          ∀ p : JVal,
            (pyOr (r.getD "prompts" (.arr [])) (r.getD "data" (.arr []))).items.find?
                (fun q => (q.get "name").eqStr name) = some p →
            (create_prompt_fallback (some r) name).1 = p.get "id")
      ∧ (∀ r : JVal, r.truthy = true → (r.get "success").truthy = true →
          (pyOr (r.getD "prompts" (.arr [])) (r.getD "data" (.arr []))).items.find?
              (fun q => (q.get "name").eqStr name) = none →
          (create_prompt_fallback (some r) name).1 = JVal.null)
      ∧ (∀ ro : Option JVal, respSuccess ro = false →
          (create_prompt_fallback ro name).1 = JVal.null) := by
  refine ⟨?_, ?_, ?_, ?_⟩
  · simp [create_prompt, h]
  · intro r h1 h2 p hfind
    simp [create_prompt_fallback, h1, h2, hfind]
  · intro r h1 h2 hfind
    simp [create_prompt_fallback, h1, h2, hfind]
  · intro ro hro
    cases ro with
    | none => rfl
    | some v =>
      simp only [respSuccess] at hro
      simp [create_prompt_fallback, hro]

/-- Witness for C4: with a create call that succeeds without an id and a
list holding a prompt named `p1`, `create_prompt` returns that prompt's
id. -/
theorem C4_create_prompt_fallback_behaviour_witness :
    (create_prompt cli promptTransport "p1" "content" JVal.null).1 = JVal.str "id1" := by
  have h := C4_create_prompt_fallback_behaviour cli promptTransport "p1" "content"
    JVal.null rfl
  rw [h.1]
  rfl

/-- C5 (counterexample): `provider=[]` is a list, yet `create_agent`
embeds nothing and prints no warning — the falsy guard skips the whole
provider block — so the claim that a list provider is always embedded as
that list (and any non-string, non-list provider always warns) is false
as stated. -/
theorem C5_counterexample_empty_list_provider :
    (create_agent_body "a" (JVal.arr [JVal.str "pid"]) JVal.null (JVal.arr [])
        JVal.null).1.hasKey "provider" = false
      ∧ (create_agent_body "a" (JVal.arr [JVal.str "pid"]) JVal.null (JVal.arr [])
          JVal.null).2 = []
      ∧ (create_agent cli okTransport "a" (JVal.arr [JVal.str "pid"]) JVal.null
          (JVal.arr []) JVal.null).2.1
        = [⟨"POST", "http://h/agent/create",
            some (JVal.obj
              [("name", JVal.str "a"),
               ("description", JVal.str "AI agent for a"),
               ("prompts", JVal.arr [JVal.str "pid"]),
               ("is_active", JVal.bool true),
               ("tools", JVal.arr [JVal.str "lang2fhir_create", JVal.str "lang2fhir_search"]),
               ("tags", JVal.arr [JVal.str "demo"])])⟩] :=
  ⟨rfl, rfl, rfl⟩

/-- C5 (amended): inside `create_agent`, a truthy (non-empty) string
provider is embedded as that single string, a non-empty list provider as
that ordered list, and any other truthy value (such as the integer 123)
only prints a warning and is omitted; a falsy provider — `None`, the
empty string, the empty list — is omitted silently with no warning, and
agent creation proceeds normally in every case. -/
theorem C5_amended_provider_handling (data : List (String × JVal)) (s : String)
    (xs : List JVal) (hs : s ≠ "") (hxs : xs ≠ []) :
    create_agent_provider_update data (.str s)
        = (data ++ [("provider", .str s)], ["  Using provider: " ++ s])
      ∧ create_agent_provider_update data (.arr xs)
        = (data ++ [("provider", .arr xs)], ["  Using providers: " ++ joinComma xs])
      ∧ create_agent_provider_update data (.num 123)
        = (data,
           ["  Warning: Invalid provider type. Expected str or list, got <class 'int'>"])
      ∧ create_agent_provider_update data (.str "") = (data, [])
      ∧ create_agent_provider_update data (.arr []) = (data, [])
      ∧ create_agent_provider_update data JVal.null = (data, []) := by
  refine ⟨?_, ?_, rfl, rfl, rfl, rfl⟩
  · simp [create_agent_provider_update, JVal.truthy, hs]
  · simp [create_agent_provider_update, JVal.truthy, hxs]

/-- Witness for C5 (amended) at concrete providers. -/
theorem C5_amended_provider_handling_witness :
    create_agent_provider_update [] (.str "openai")
        = ([("provider", JVal.str "openai")], ["  Using provider: openai"])
      ∧ create_agent_provider_update [] (.arr [JVal.str "openai", JVal.str "anthropic"])
        = ([("provider", JVal.arr [JVal.str "openai", JVal.str "anthropic"])],
           ["  Using providers: openai, anthropic"])
      ∧ create_agent_provider_update [] (.num 123)
        = ([],
           ["  Warning: Invalid provider type. Expected str or list, got <class 'int'>"])
      ∧ create_agent_provider_update [] (.str "") = ([], [])
      ∧ create_agent_provider_update [] (.arr []) = ([], [])
      ∧ create_agent_provider_update [] JVal.null = ([], []) :=
  C5_amended_provider_handling [] "openai" [JVal.str "openai", JVal.str "anthropic"]
    (by decide) (by simp)

/-- A response whose `codes` field is present but empty. -/
def emptyCodesResp : JVal :=
  JVal.obj [("codes", JVal.arr []), ("message", JVal.str "no codes found")]

/-- C6 (counterexample): a response carrying `codes` as an empty list has
the `codes` field present, yet `extract_medical_codes` takes the error
branch and returns `None`, so "success exactly when a codes field is
present" is false as stated. -/
theorem C6_counterexample_empty_codes_field :
    emptyCodesResp.hasKey "codes" = true
      ∧ (extract_handle (some emptyCodesResp) true).1 = none
      ∧ (extract_handle (some emptyCodesResp) true).2
        = ["✗ Failed to extract medical codes", "   Error: no codes found"]
      ∧ (extract_medical_codes cli (fun _ => .ok emptyCodesResp) "t" "ICD-10-CM" "2025"
          "none" 20 (9/10) true).1 = none :=
  ⟨rfl, rfl, rfl, rfl⟩

/-- C6 (amended): code extraction takes the success branch — printing the
codes and returning the full raw response — exactly when the truthy
response's `codes` field is truthy (present and non-empty); otherwise it
prints an error derived from `message`, else from `error`, with the
unknown-error fallback when neither is truthy, and returns `None`. -/
theorem C6_amended_codes_branch (r : JVal) (include_rationale : Bool)
    (hr : r.truthy = true) :
    ((r.get "codes").truthy = true →
        (extract_handle (some r) include_rationale).1 = some r)
      ∧ ((r.get "codes").truthy = false →
          (extract_handle (some r) include_rationale).1 = none
            ∧ (extract_handle (some r) include_rationale).2
              = ["✗ Failed to extract medical codes",
                 if (r.get "message").truthy then "   Error: " ++ pyStr (r.get "message")
                 else if (r.get "error").truthy then "   Error: " ++ pyStr (r.get "error")
                 else "   Error: Unknown error occurred"]) := by
  constructor
  · intro hc; simp [extract_handle, hr, hc]
  · intro hc; simp [extract_handle, hr, hc]

/-- Witness for C6 (amended): one response with a non-empty `codes`
field and one with an empty one. -/
theorem C6_amended_codes_branch_witness :
    (extract_handle
        (some (JVal.obj [("codes", JVal.arr [JVal.obj [("code", JVal.str "E11.9")]])]))
        true).1
      = some (JVal.obj [("codes", JVal.arr [JVal.obj [("code", JVal.str "E11.9")]])])
      ∧ (extract_handle (some emptyCodesResp) true).1 = none := by
  constructor
  · exact (C6_amended_codes_branch
      (JVal.obj [("codes", JVal.arr [JVal.obj [("code", JVal.str "E11.9")]])])
      true rfl).1 rfl
  · exact ((C6_amended_codes_branch emptyCodesResp true rfl).2 rfl).1

/-- A successful search response with four results. -/
def searchResp4 (r1 r2 r3 r4 : JVal) : JVal :=
  JVal.obj [("success", JVal.bool true), ("fhir_results", JVal.arr [r1, r2, r3, r4])]

/-- A successful cohort response with seven patient ids. -/
def cohortResp7 (i1 i2 i3 i4 i5 i6 i7 : JVal) : JVal :=
  JVal.obj [("success", JVal.bool true), ("patientCount", JVal.num 7),
            ("patientIds", JVal.arr [i1, i2, i3, i4, i5, i6, i7])]

/-- C7: on a successful search response with four `fhir_results` entries
the search demo reports "Found 4 results", prints exactly the first three
entries as samples followed by a "... and 1 more" notice, and returns the
raw response; and on a cohort response with seven patient ids the cohort
demo prints exactly the first five ids followed by "... and 2 more". -/
theorem C7_sample_caps (r1 r2 r3 r4 i1 i2 i3 i4 i5 i6 i7 : JVal) :
    (demo_lang2fhir_search cli (fun _ => .ok (searchResp4 r1 r2 r3 r4)) "q"
        JVal.null JVal.null JVal.null JVal.null JVal.null JVal.null JVal.null).2.2
      = [" Searching for: 'q'",
         "Request payload: " ++ (demo_lang2fhir_search_body "q" JVal.null JVal.null
             JVal.null JVal.null JVal.null JVal.null JVal.null).render,
         "✓ Found 4 results",
         "  Resource Type: Unknown",
         "  Search Params: ",
         "  1. " ++ pyStr (r1.get "resourceType") ++ " (ID: " ++ pyStr (r1.get "id") ++ ")",
         "  2. " ++ pyStr (r2.get "resourceType") ++ " (ID: " ++ pyStr (r2.get "id") ++ ")",
         "  3. " ++ pyStr (r3.get "resourceType") ++ " (ID: " ++ pyStr (r3.get "id") ++ ")",
         "  ... and 1 more"]
      ∧ (demo_lang2fhir_search cli (fun _ => .ok (searchResp4 r1 r2 r3 r4)) "q"
          JVal.null JVal.null JVal.null JVal.null JVal.null JVal.null JVal.null).1
        = some (searchResp4 r1 r2 r3 r4)
      ∧ (demo_cohort_tool cli (fun _ => .ok (cohortResp7 i1 i2 i3 i4 i5 i6 i7)) "q" "openai"
          JVal.null JVal.null JVal.null).2.2
        = [" Performing cohort analysis for: 'q'",
           " Request payload: " ++ (demo_cohort_tool_body "q" "openai" JVal.null JVal.null
               JVal.null).render,
           "✓ Cohort analysis completed successfully!",
           "  Found 7 patients",
           "  Search concepts used: 0",
           "  Sample patient IDs:",
           "    1. " ++ pyStr i1,
           "    2. " ++ pyStr i2,
           "    3. " ++ pyStr i3,
           "    4. " ++ pyStr i4,
           "    5. " ++ pyStr i5,
           "    ... and 2 more"] := by
  refine ⟨?_, rfl, ?_⟩
  · exact Eq.trans
      (rfl : _
        = [" Searching for: 'q'",
           "Request payload: " ++ (demo_lang2fhir_search_body "q" JVal.null JVal.null
               JVal.null JVal.null JVal.null JVal.null JVal.null).render,
           "✓ Found " ++ toString (4 : Nat) ++ " results",
           "  Resource Type: Unknown",
           "  Search Params: ",
           "  1. " ++ pyStr (r1.get "resourceType") ++ " (ID: " ++ pyStr (r1.get "id") ++ ")",
           "  2. " ++ pyStr (r2.get "resourceType") ++ " (ID: " ++ pyStr (r2.get "id") ++ ")",
           "  3. " ++ pyStr (r3.get "resourceType") ++ " (ID: " ++ pyStr (r3.get "id") ++ ")",
           "  ... and " ++ toString (1 : Nat) ++ " more"])
      rfl
  · exact Eq.trans
      (rfl : _
        = [" Performing cohort analysis for: 'q'",
           " Request payload: " ++ (demo_cohort_tool_body "q" "openai" JVal.null JVal.null
               JVal.null).render,
           "✓ Cohort analysis completed successfully!",
           "  Found 7 patients",
           "  Search concepts used: " ++ toString (0 : Nat),
           "  Sample patient IDs:",
           "    1. " ++ pyStr i1,
           "    2. " ++ pyStr i2,
           "    3. " ++ pyStr i3,
           "    4. " ++ pyStr i4,
           "    5. " ++ pyStr i5,
           "    ... and " ++ toString (2 : Nat) ++ " more"])
      rfl

/-- A codes response in which every code carries a `reason` field. -/
def reasonedCodesResp : JVal :=
  JVal.obj
    [("codes", JVal.arr
      [JVal.obj [("code", JVal.str "E11.9"),
                 ("description", JVal.str "Type 2 diabetes"),
                 ("reason", JVal.str "mentions diabetes")],
       JVal.obj [("code", JVal.str "I10"),
                 ("description", JVal.str "Hypertension"),
                 ("reason", JVal.str "mentions high blood pressure")]]),
     ("system", JVal.obj [("name", JVal.str "ICD-10-CM"), ("version", JVal.str "2025")])]

/-- C8: with `include_rationale=False` the per-code output of
`extract_medical_codes` never contains a rationale line — every step of
the per-code block contributes exactly the code line, the description
line and a blank line, for any code, even one carrying a `reason` field —
and on a concrete response whose codes all carry `reason` fields the
operation still returns the full raw response while printing no reason
line. -/
theorem C8_no_rationale_printed (code : JVal) (rest : List JVal) (i : Nat) :
    extract_code_lines_from false i (code :: rest)
        = ["    " ++ toString (i + 1) ++ ". Code: "
              ++ pyStr (code.getD "code" (.str "Unknown")),
           "       Description: "
              ++ pyStr (code.getD "description" (.str "No description")),
           ""]
          ++ extract_code_lines_from false (i + 1) rest
      ∧ (extract_medical_codes cli (fun _ => .ok reasonedCodesResp) "t" "ICD-10-CM" "2025"
          "none" 20 (9/10) false).1 = some reasonedCodesResp
      ∧ (extract_handle (some reasonedCodesResp) false).2
        = ["✓ Medical codes extracted successfully!",
           "   System: ICD-10-CM 2025",
           "   Found 2 medical codes:",
           "    1. Code: E11.9",
           "       Description: Type 2 diabetes",
           "",
           "    2. Code: I10",
           "       Description: Hypertension",
           ""] := by
  refine ⟨?_, rfl, rfl⟩
  simp [extract_code_lines_from, Bool.and_false]

/-- C10: a 200 authentication response whose body carries neither `token`
nor `access_token` still makes `authenticate` return `true`, while the
stored token becomes `None`, so every subsequent `request` returns `None`
without attempting an HTTP call. -/
theorem C10_tokenless_200 (c : PhenoMLClient) (body : JVal) (text : String)
    (transport : Transport) (method endpoint : String) (data : Option JVal)
    (h1 : body.get "token" = JVal.null) (h2 : body.get "access_token" = JVal.null) :
    (authenticate c (.resp 200 body text)).1 = true
      ∧ (authenticate c (.resp 200 body text)).2.1.token = JVal.null
      ∧ request (authenticate c (.resp 200 body text)).2.1 transport method endpoint data
          = (none, [], ["✗ No authentication token available"]) := by
  simp [authenticate, pyOr, h1, h2, JVal.truthy, request]

/-- Witness for C10: a 200 body with only unrelated fields. -/
theorem C10_tokenless_200_witness :
    (authenticate freshCli (.resp 200 (JVal.obj [("ok", JVal.bool true)]) "")).1 = true
      ∧ (authenticate freshCli (.resp 200 (JVal.obj [("ok", JVal.bool true)]) "")).2.1.token
          = JVal.null
      ∧ request (authenticate freshCli (.resp 200 (JVal.obj [("ok", JVal.bool true)]) "")).2.1
            okTransport "GET" "/agent/list" none
          = (none, [], ["✗ No authentication token available"]) :=
  C10_tokenless_200 freshCli (JVal.obj [("ok", JVal.bool true)]) "" okTransport
    "GET" "/agent/list" none rfl rfl

end PhenoML
